import Mathlib

/-!
Shallow embedding of the credential-storage and OAuth2 token-cache core of
the sfcc-webdav-manager repository, together with theorems settling the
spec claims.

Sources embedded:
  * src/credential-manager.js  (class CredentialManager)
  * src/oauth2-manager.js      (class OAuth2Manager)
  * the WebDAV manager file    (class WebDAVManager, testConnection)

Modelling conventions:
  * The electron-store contents are a structure of explicit fields; the JS
    object keyed by connection id is an association list.
  * Timestamps are integers (milliseconds, as produced by Date.now()); the
    ISO strings written to lastConnected are modelled by their underlying
    instant, which the code only ever compares chronologically.
  * The external AES primitive (crypto-js) is modelled algebraically: a
    ciphertext is an unforgeable pairing of the encryption key it was made
    under with the encrypted payload, and decryption under a different key
    yields the empty string (crypto-js yields garbage or an empty string on
    key mismatch).  The JSON serialize/parse round-trip applied to the flat
    secret record is modelled as the identity embedding, so the encrypted
    payload is carried structurally.
  * "Appears in cleartext in the serialized store" is modelled at field
    granularity: the cleartext strings of the store are exactly the string
    field values persisted outside any ciphertext.
  * Network effects (the HTTPS token request, the WebDAV round-trips) are
    oracles passed in as explicit arguments; each function additionally
    reports how many network requests it issued.
-/

namespace SfccWebdav

/-- Association-list lookup, mirroring JS object indexing obj[key]. -/
def lookupAssoc (l : List (String × α)) (k : String) : Option α :=
  (l.find? (fun p => p.1 == k)).map Prod.snd

/-- Association-list update, mirroring JS object assignment obj[key] = v. -/
def setAssoc (l : List (String × α)) (k : String) (v : α) : List (String × α) :=
  if l.any (fun p => p.1 == k) then
    l.map (fun p => if p.1 == k then (k, v) else p)
  else
    l ++ [(k, v)]

/-- Association-list removal, mirroring JS delete obj[key]. -/
def removeAssoc (l : List (String × α)) (k : String) : List (String × α) :=
  l.filter (fun p => !(p.1 == k))

/-- A value encrypted under a key.  Models the output of the external
authenticated-encryption primitive: the payload is recoverable only under
the same key, and nothing of the payload is visible in cleartext. -/
structure Encrypted (α : Type) where
  key : String
  data : α
deriving DecidableEq, Repr

/-- The public (non-secret) record persisted per connection, as assembled by
saveCredentials: name, url, authType, username (basic auth only),
lastConnected, lastLocalFolder, id. -/
structure PublicData where
  name : String
  url : String
  authType : String
  username : Option String
  lastConnected : Int
  lastLocalFolder : Option String
  id : String
deriving DecidableEq, Repr

/-- The sensitive record built by saveCredentials before encryption: its
shape depends on authType (basic / bearer / oauth2 / anything else gives the
empty object). -/
inductive SensitiveData where
  | basic (username password : String)
  | bearer (token : String)
  | oauth2 (clientId clientSecret : String)
  | empty
deriving DecidableEq, Repr

/-- The electron-store contents relevant to the credential manager, after
initializeStore and getOrCreateEncryptionKey have run (so the key exists). -/
structure StoreState where
  encryptionSalt : String
  connections : List PublicData
  sensitiveData : List (String × Encrypted SensitiveData)
deriving DecidableEq, Repr

/-- The credentials object passed into saveCredentials from the UI. -/
structure Credentials where
  id : Option String
  name : String
  url : String
  authType : String
  username : String
  password : String
  token : String
  clientId : String
  clientSecret : String
  lastLocalFolder : Option String
deriving DecidableEq, Repr

/-- Stand-in for the truncated md5 digest in generateConnectionId.  The
claims do not depend on the digest's value, only on it being a deterministic
function of name and timestamp. -/
def digestHex (s : String) : String :=
  toString (s.foldl (fun a c => a * 131 + c.toNat) 7)

/-- generateConnectionId: conn_ followed by a digest of name + timestamp. -/
def generateConnectionId (name : String) (timestamp : Int) : String :=
  "conn_" ++ digestHex (name ++ toString timestamp)

/-- encryptData: AES-encrypt a string under the store's encryptionSalt. -/
def encryptData (st : StoreState) (data : String) : Encrypted String :=
  ⟨st.encryptionSalt, data⟩

/-- decryptData: AES-decrypt under the store's encryptionSalt; a mismatched
key yields the empty string rather than the payload. -/
def decryptData (st : StoreState) (e : Encrypted String) : String :=
  if e.key == st.encryptionSalt then e.data else ""

/-- The sensitive record saveCredentials builds from the input credentials,
following its if / else-if chain on authType. -/
def buildSensitiveData (c : Credentials) : SensitiveData :=
  if c.authType == "basic" then .basic c.username c.password
  else if c.authType == "bearer" then .bearer c.token
  else if c.authType == "oauth2" then .oauth2 c.clientId c.clientSecret
  else .empty

/-- The connection id saveCredentials uses: the one supplied with the
credentials (editing an existing connection), otherwise a freshly generated
one. -/
def connectionIdOf (c : Credentials) (now : Int) : String :=
  match c.id with
  | some i => i
  | none => generateConnectionId c.name now

/-- The public (non-sensitive) record saveCredentials assembles: username
is stored only for basic auth, and lastConnected is stamped with the time
of the save. -/
def publicDataOf (c : Credentials) (now : Int) : PublicData :=
  { name := c.name
    url := c.url
    authType := c.authType
    username := if c.authType == "basic" then some c.username else none
    lastConnected := now
    lastLocalFolder := c.lastLocalFolder
    id := connectionIdOf c now }

/-- saveCredentials: choose (or generate) the connection id, assemble the
public record, encrypt the sensitive record under the store key, store it
keyed by id, and replace-or-append the public record in the connections
list.  Returns the updated store and the connection id. -/
def saveCredentials (st : StoreState) (c : Credentials) (now : Int) :
    StoreState × String :=
  let connectionId := connectionIdOf c now
  let encryptedSensitiveData : Encrypted SensitiveData :=
    ⟨st.encryptionSalt, buildSensitiveData c⟩
  let allSensitiveData := setAssoc st.sensitiveData connectionId encryptedSensitiveData
  let connections :=
    if st.connections.any (fun conn => conn.id == connectionId) then
      st.connections.map (fun conn =>
        if conn.id == connectionId then publicDataOf c now else conn)
    else
      st.connections ++ [publicDataOf c now]
  ({ st with sensitiveData := allSensitiveData, connections := connections },
   connectionId)

/-- The errors loadCredentials distinguishes: connection id unknown, versus
public record present but no encrypted blob stored, versus ciphertext that
does not decrypt under the current key. -/
inductive LoadError where
  | notFound
  | secretMissing
  | decryptionFailed
deriving DecidableEq, Repr

/-- The merged object returned by loadCredentials: spread of the public
record then of the decrypted sensitive record (sensitive fields shadow
public ones on a shared key, which only happens for username). -/
structure FullCredentials where
  name : String
  url : String
  authType : String
  username : Option String
  lastConnected : Int
  lastLocalFolder : Option String
  id : String
  password : Option String
  token : Option String
  clientId : Option String
  clientSecret : Option String
deriving DecidableEq, Repr

/-- Spread merge of a public record with a decrypted sensitive record. -/
def mergeCredentials (conn : PublicData) (s : SensitiveData) : FullCredentials :=
  let base : FullCredentials :=
    { name := conn.name, url := conn.url, authType := conn.authType
      username := conn.username, lastConnected := conn.lastConnected
      lastLocalFolder := conn.lastLocalFolder, id := conn.id
      password := none, token := none, clientId := none, clientSecret := none }
  match s with
  | .basic u p => { base with username := some u, password := some p }
  | .bearer t => { base with token := some t }
  | .oauth2 ci cs => { base with clientId := some ci, clientSecret := some cs }
  | .empty => base

/-- loadCredentials: find the public record (error if the id is unknown),
find the encrypted blob (a distinct error if absent), decrypt it and merge
the two halves. -/
def loadCredentials (st : StoreState) (connectionId : String) :
    Except LoadError FullCredentials :=
  match st.connections.find? (fun conn => conn.id == connectionId) with
  | none => .error .notFound
  | some connection =>
    match lookupAssoc st.sensitiveData connectionId with
    | none => .error .secretMissing
    | some enc =>
      if enc.key == st.encryptionSalt then
        .ok (mergeCredentials connection enc.data)
      else
        .error .decryptionFailed

/-- updateLastConnected: stamp the stored record's lastConnected with the
current time, if the id is known (best-effort otherwise). -/
def updateLastConnected (st : StoreState) (connectionId : String) (now : Int) :
    StoreState :=
  if st.connections.any (fun conn => conn.id == connectionId) then
    { st with connections := st.connections.map (fun conn =>
        if conn.id == connectionId then { conn with lastConnected := now } else conn) }
  else st

/-- Descending insertion by lastConnected, realising the comparator
(a, b) => dateOf b.lastConnected - dateOf a.lastConnected. -/
def insertByLastConnectedDesc (c : PublicData) : List PublicData → List PublicData
  | [] => [c]
  | x :: xs =>
    if x.lastConnected < c.lastConnected then c :: x :: xs
    else x :: insertByLastConnectedDesc c xs

/-- Sort the connections most-recently-connected first, as
connections.sort((a, b) => new Date(b.lastConnected) - new Date(a.lastConnected)). -/
def sortByLastConnectedDesc : List PublicData → List PublicData
  | [] => []
  | x :: xs => insertByLastConnectedDesc x (sortByLastConnectedDesc xs)

/-- getLastConnection: none when no connections exist, otherwise the first
element after sorting by lastConnected descending. -/
def getLastConnection (st : StoreState) : Option PublicData :=
  if st.connections.isEmpty then none
  else (sortByLastConnectedDesc st.connections).head?

/-- The cleartext string values one stored public record contributes to the
serialized store file: name, url, authType, id, the basic-auth username and
the folder hint. -/
def publicValues (conn : PublicData) : List String :=
  [conn.name, conn.url, conn.authType, conn.id]
    ++ conn.username.toList ++ conn.lastLocalFolder.toList

/-- Every string field value the store persists outside a ciphertext: the
encryption key record plus the field values of every public record.  These
are exactly the strings visible in cleartext in the serialized store
file. -/
def cleartextValues (st : StoreState) : List String :=
  st.encryptionSalt :: st.connections.flatMap publicValues

/- ## OAuth2Manager -/

/-- A cached token entry: accessToken, absolute expiresAt (ms) and
tokenType. -/
structure TokenData where
  accessToken : String
  expiresAt : Int
  tokenType : String
deriving DecidableEq, Repr

/-- A pending refresh timer, identified by the delay (ms) it was armed
with; clearing a connection removes it so it can never fire. -/
structure RefreshTimer where
  delayMs : Int
deriving DecidableEq, Repr

/-- The OAuth2Manager's in-memory state: tokens and refreshTimers, both
keyed by connection id. -/
structure OAuth2State where
  tokens : List (String × TokenData)
  refreshTimers : List (String × RefreshTimer)
deriving DecidableEq, Repr

/-- The parsed JSON body of a 2xx token-endpoint response; absent fields
are none.  expires_in = some 0 is falsy in JS and also falls back to the
default, as does token_type = some "". -/
structure TokenResponse where
  access_token : Option String
  expires_in : Option Int
  token_type : Option String
deriving DecidableEq, Repr

/-- Outcome of one HTTPS token request: a parsed 2xx body, or a rejection
(network error, non-2xx status, or unparsable body). -/
inductive HttpOutcome where
  | ok (body : TokenResponse)
  | fail
deriving DecidableEq, Repr

/-- The JS expression (tokenData.expires_in || 3600): undefined, null and 0
are falsy and select the 3600-second default. -/
def expiresInOrDefault (e : Option Int) : Int :=
  match e with
  | none => 3600
  | some v => if v = 0 then 3600 else v

/-- The JS expression (tokenData.token_type || 'Bearer'). -/
def tokenTypeOrDefault (t : Option String) : String :=
  match t with
  | none => "Bearer"
  | some s => if s = "" then "Bearer" else s

/-- scheduleTokenRefresh: clear any existing timer for the connection and
arm a new one with delay max(delayMs - 5min, 1min). -/
def scheduleTokenRefresh (o2 : OAuth2State) (connectionId : String) (delayMs : Int) :
    OAuth2State :=
  let refreshDelay := max (delayMs - 5 * 60 * 1000) 60000
  { o2 with refreshTimers := setAssoc o2.refreshTimers connectionId ⟨refreshDelay⟩ }

/-- requestNewToken: POST the client-credentials grant (one network
request); on a 2xx body carrying an access_token, compute
expiresIn = (expires_in or 3600) - 300 seconds, store the entry with
expiresAt = now + expiresIn * 1000, schedule the refresh with
delayMs = expiresIn * 1000, and return the token; otherwise throw (none).
The returned Nat is the number of network requests issued (always 1). -/
def requestNewToken (o2 : OAuth2State) (connectionId : String) (now : Int)
    (outcome : HttpOutcome) : OAuth2State × Option String × Nat :=
  match outcome with
  | .fail => (o2, none, 1)
  | .ok body =>
    match body.access_token with
    | none => (o2, none, 1)
    | some tok =>
      let expiresIn := expiresInOrDefault body.expires_in - 300
      let expiresAt := now + expiresIn * 1000
      let tokens := setAssoc o2.tokens connectionId
        ⟨tok, expiresAt, tokenTypeOrDefault body.token_type⟩
      let o2' := scheduleTokenRefresh { o2 with tokens := tokens }
        connectionId (expiresIn * 1000)
      (o2', some tok, 1)

/-- getAccessToken: serve the cached token when one exists, refresh is not
forced and now is strictly before its expiresAt (zero network requests);
otherwise request a new token. -/
def getAccessToken (o2 : OAuth2State) (connectionId : String) (now : Int)
    (forceRefresh : Bool) (outcome : HttpOutcome) :
    OAuth2State × Option String × Nat :=
  match lookupAssoc o2.tokens connectionId with
  | some tokenData =>
    if !forceRefresh && decide (tokenData.expiresAt > now) then
      (o2, some tokenData.accessToken, 0)
    else
      requestNewToken o2 connectionId now outcome
  | none => requestNewToken o2 connectionId now outcome

/-- clearConnection: cancel any pending refresh timer and evict the cached
token for the connection. -/
def clearConnection (o2 : OAuth2State) (connectionId : String) : OAuth2State :=
  { tokens := removeAssoc o2.tokens connectionId
    refreshTimers := removeAssoc o2.refreshTimers connectionId }

/-- deleteCredentials: if a public record with the id exists, clear the
OAuth2 state for oauth2-type connections, remove the public record and the
encrypted blob, and return true; otherwise return false.  The OAuth2
manager is always injected at startup (main.js wires it), so it is part of
the state here. -/
def deleteCredentials (st : StoreState) (o2 : OAuth2State) (connectionId : String) :
    StoreState × OAuth2State × Bool :=
  match st.connections.find? (fun conn => conn.id == connectionId) with
  | none => (st, o2, false)
  | some connection =>
    let o2' := if connection.authType == "oauth2" then clearConnection o2 connectionId else o2
    ({ st with
        connections := st.connections.eraseP (fun conn => conn.id == connectionId)
        sensitiveData := removeAssoc st.sensitiveData connectionId },
     o2', true)

/- ## WebDAVManager.testConnection -/

/-- Oracle for the remote round-trips testConnection performs.
firstFailure: none when the initial initializeClient + directory listing
succeeds, otherwise some status where status is the thrown error's optional
HTTP status (error.status).  The three Booleans give the outcomes of the
retry path's forced token refresh, client re-initialization and retried
listing (true = succeeds, false = throws). -/
structure TestWorld where
  firstFailure : Option (Option Int)
  refreshSucceeds : Bool
  reinitSucceeds : Bool
  retryVerifySucceeds : Bool
deriving DecidableEq, Repr

/-- Observable trace of one testConnection call: its Boolean result, how
many forced token refreshes it performed, how many client
re-initializations, and how many directory-listing verification attempts
(the initial attempt included). -/
structure TestTrace where
  result : Bool
  forcedRefreshes : Nat
  reinitializations : Nat
  verifyAttempts : Nat
deriving DecidableEq, Repr

/-- testConnection: initialize the client and list the current directory;
on success return true.  On failure, if the error carries HTTP status 401
and the connection is oauth2, force one token refresh, re-initialize the
client and retry the listing once, returning its outcome and false if any
retry step throws; every other failure returns false immediately. -/
def testConnection (authType : String) (w : TestWorld) : TestTrace :=
  match w.firstFailure with
  | none => ⟨true, 0, 0, 1⟩
  | some status =>
    if status == some 401 && authType == "oauth2" then
      if !w.refreshSucceeds then ⟨false, 1, 0, 1⟩
      else if !w.reinitSucceeds then ⟨false, 1, 1, 1⟩
      else ⟨w.retryVerifySucceeds, 1, 1, 2⟩
    else ⟨false, 0, 0, 1⟩

/- ## Auxiliary predicates and concrete fixtures -/

/-- The Secret Bundle field values other than the basic-auth username:
password for basic, token for bearer, clientId and clientSecret for
oauth2. -/
def nonUsernameSecretValues : SensitiveData → List String
  | .basic _ p => [p]
  | .bearer t => [t]
  | .oauth2 ci cs => [ci, cs]
  | .empty => []

/-- The merged record carries every public field of the connection. -/
def containsPublicFields (r : FullCredentials) (conn : PublicData) : Prop :=
  r.name = conn.name ∧ r.url = conn.url ∧ r.authType = conn.authType ∧
  r.username = conn.username ∧ r.lastConnected = conn.lastConnected ∧
  r.lastLocalFolder = conn.lastLocalFolder ∧ r.id = conn.id

/-- The merged record carries every decrypted Secret Bundle field. -/
def containsSecretFields (r : FullCredentials) : SensitiveData → Prop
  | .basic u p => r.username = some u ∧ r.password = some p
  | .bearer t => r.token = some t
  | .oauth2 ci cs => r.clientId = some ci ∧ r.clientSecret = some cs
  | .empty => True

/-- A store holding only the encryption key, as after first launch. -/
def emptyStore : StoreState :=
  { encryptionSalt := "key0", connections := [], sensitiveData := [] }

/-- An OAuth2Manager with no cached tokens and no timers. -/
def emptyOAuth2 : OAuth2State :=
  { tokens := [], refreshTimers := [] }

/-- A basic-auth credentials record used by concrete instantiations. -/
def basicCreds : Credentials :=
  { id := none, name := "dev", url := "https://x/webdav", authType := "basic"
    username := "alice-secret", password := "pw-secret", token := ""
    clientId := "", clientSecret := "", lastLocalFolder := none }

/-- A bearer-auth credentials record used by concrete instantiations. -/
def bearerCreds : Credentials :=
  { id := some "c1", name := "dev", url := "https://x/webdav", authType := "bearer"
    username := "", password := "", token := "tok-secret"
    clientId := "", clientSecret := "", lastLocalFolder := none }

/-- An oauth2-type credentials record used by concrete instantiations. -/
def oauthCreds : Credentials :=
  { id := some "c2", name := "prod", url := "https://y/webdav", authType := "oauth2"
    username := "", password := "", token := ""
    clientId := "cid", clientSecret := "csecret", lastLocalFolder := none }

/-- A 2xx token-endpoint body declaring a 3600-second lifetime. -/
def body3600 : TokenResponse :=
  { access_token := some "T1", expires_in := some 3600, token_type := none }

/-- A 2xx token-endpoint body with no expires_in field. -/
def bodyNoExpiry : TokenResponse :=
  { access_token := some "T1", expires_in := none, token_type := none }

/-- A 2xx token-endpoint body declaring a 100-second lifetime. -/
def body100 : TokenResponse :=
  { access_token := some "T", expires_in := some 100, token_type := none }

/-- A stored public record for an oauth2-type connection with id c2. -/
def oauthConn : PublicData :=
  { name := "prod", url := "https://y/webdav", authType := "oauth2"
    username := none, lastConnected := 0, lastLocalFolder := none, id := "c2" }

/-- A store holding the single oauth2 connection c2 with its secret blob. -/
def storeWithOauth : StoreState :=
  { encryptionSalt := "key0", connections := [oauthConn]
    sensitiveData := [("c2", ⟨"key0", .oauth2 "cid" "csecret"⟩)] }

/-- An OAuth2Manager holding a cached token and a pending timer for c2. -/
def o2WithToken : OAuth2State :=
  { tokens := [("c2", ⟨"T0", 99999, "Bearer"⟩)], refreshTimers := [("c2", ⟨60000⟩)] }

/-- A stored public record for a basic-auth connection with id c9. -/
def oldBasicConn : PublicData :=
  { name := "old", url := "https://z/webdav", authType := "basic"
    username := some "bob", lastConnected := 500, lastLocalFolder := none, id := "c9" }

/-- A store holding the single basic connection c9, last connected at 500. -/
def storeWithOld : StoreState :=
  { encryptionSalt := "key0", connections := [oldBasicConn]
    sensitiveData := [("c9", ⟨"key0", .basic "bob" "pw9"⟩)] }

/-- A store whose public record for c2 has no matching secret blob. -/
def storeMissingSecret : StoreState :=
  { encryptionSalt := "key0", connections := [oauthConn], sensitiveData := [] }

/- ## Association-list lemmas -/

theorem setAssoc_cons_ne {α : Type} (a : String) (b : α) (tl : List (String × α))
    (k : String) (v : α) (h : (a == k) = false) :
    setAssoc ((a, b) :: tl) k v = (a, b) :: setAssoc tl k v := by
  have hne : a ≠ k := by simpa using h
  by_cases hany : (tl.any fun p => p.1 == k) = true
  · simp [setAssoc, hany, h, hne]
  · rw [Bool.not_eq_true] at hany
    simp [setAssoc, hany, h, hne]

theorem lookupAssoc_setAssoc {α : Type} (l : List (String × α)) (k : String) (v : α) :
    lookupAssoc (setAssoc l k v) k = some v := by
  induction l with
  | nil => simp [setAssoc, lookupAssoc]
  | cons p tl ih =>
    obtain ⟨a, b⟩ := p
    by_cases h : (a == k) = true
    · have hk : a = k := by simpa using h
      subst hk
      simp only [setAssoc, List.any_cons, beq_self_eq_true, Bool.true_or, if_true]
      simp [lookupAssoc]
    · have h' : (a == k) = false := by simpa using h
      rw [setAssoc_cons_ne a b tl k v h']
      simp only [lookupAssoc, List.find?_cons, h']
      exact ih

theorem lookupAssoc_removeAssoc {α : Type} (l : List (String × α)) (k : String) :
    lookupAssoc (removeAssoc l k) k = none := by
  induction l with
  | nil => simp [removeAssoc, lookupAssoc]
  | cons p tl ih =>
    obtain ⟨a, b⟩ := p
    by_cases h : (a == k) = true
    · have hstep : removeAssoc ((a, b) :: tl) k = removeAssoc tl k := by
        simp [removeAssoc, List.filter_cons, h]
      rw [hstep]
      exact ih
    · have h' : (a == k) = false := by simpa using h
      have hstep : removeAssoc ((a, b) :: tl) k = (a, b) :: removeAssoc tl k := by
        simp [removeAssoc, List.filter_cons, h']
      rw [hstep]
      simp only [lookupAssoc, List.find?_cons, h']
      exact ih

/- ## saveCredentials structure lemmas -/

theorem saveCredentials_snd (st : StoreState) (c : Credentials) (now : Int) :
    (saveCredentials st c now).2 = connectionIdOf c now := rfl

theorem saveCredentials_sensitiveData (st : StoreState) (c : Credentials) (now : Int) :
    (saveCredentials st c now).1.sensitiveData
      = setAssoc st.sensitiveData (connectionIdOf c now)
          ⟨st.encryptionSalt, buildSensitiveData c⟩ := rfl

theorem saveCredentials_encryptionSalt (st : StoreState) (c : Credentials) (now : Int) :
    (saveCredentials st c now).1.encryptionSalt = st.encryptionSalt := rfl

theorem mem_saveCredentials_connections (st : StoreState) (c : Credentials) (now : Int)
    (conn : PublicData) (h : conn ∈ (saveCredentials st c now).1.connections) :
    (conn ∈ st.connections ∧ (conn.id == connectionIdOf c now) = false)
      ∨ conn = publicDataOf c now := by
  simp only [saveCredentials] at h
  by_cases hany : (st.connections.any fun x => x.id == connectionIdOf c now) = true
  · rw [if_pos hany] at h
    obtain ⟨a, ha, hor⟩ := List.mem_map.mp h
    by_cases hid : (a.id == connectionIdOf c now) = true
    · right
      rw [if_pos hid] at hor
      exact hor.symm
    · left
      rw [Bool.not_eq_true] at hid
      rw [if_neg (by simp [hid])] at hor
      exact ⟨hor ▸ ha, hor ▸ hid⟩
  · rw [if_neg hany] at h
    rcases List.mem_append.mp h with h' | h'
    · refine Or.inl ⟨h', ?_⟩
      by_contra hcontra
      rw [Bool.not_eq_false] at hcontra
      exact hany (List.any_eq_true.mpr ⟨conn, h', hcontra⟩)
    · exact Or.inr (by simpa using h')

theorem publicDataOf_mem_saveCredentials (st : StoreState) (c : Credentials) (now : Int) :
    publicDataOf c now ∈ (saveCredentials st c now).1.connections := by
  simp only [saveCredentials]
  by_cases hany : (st.connections.any fun x => x.id == connectionIdOf c now) = true
  · rw [if_pos hany]
    obtain ⟨a, ha, haid⟩ := List.any_eq_true.mp hany
    exact List.mem_map.mpr ⟨a, ha, by rw [if_pos haid]⟩
  · rw [if_neg hany]
    exact List.mem_append_right _ (by simp)

theorem mem_cleartextValues (st : StoreState) (v : String) :
    v ∈ cleartextValues st ↔
      v = st.encryptionSalt ∨ ∃ conn ∈ st.connections, v ∈ publicValues conn := by
  simp [cleartextValues]

/- ## Sorting lemma: the head of the descending sort is a maximum -/

theorem sortByLastConnectedDesc_head_max (l : List PublicData) (hne : l ≠ []) :
    ∃ m, (sortByLastConnectedDesc l).head? = some m ∧ m ∈ l ∧
      ∀ x ∈ l, x.lastConnected ≤ m.lastConnected := by
  induction l with
  | nil => exact absurd rfl hne
  | cons c tl ih =>
    cases tl with
    | nil => exact ⟨c, rfl, by simp, by simp⟩
    | cons d tl' =>
      obtain ⟨m, hh, hm, hmax⟩ := ih (by simp)
      obtain ⟨rest, hsort⟩ : ∃ rest, sortByLastConnectedDesc (d :: tl') = m :: rest := by
        cases hs : sortByLastConnectedDesc (d :: tl') with
        | nil => rw [hs] at hh; exact absurd hh (by simp)
        | cons m' rest =>
          rw [hs] at hh
          simp only [List.head?_cons, Option.some.injEq] at hh
          exact ⟨rest, by rw [hh]⟩
      rw [show sortByLastConnectedDesc (c :: d :: tl')
            = insertByLastConnectedDesc c (sortByLastConnectedDesc (d :: tl')) from rfl, hsort]
      by_cases hlt : m.lastConnected < c.lastConnected
      · refine ⟨c, ?_, by simp, ?_⟩
        · simp [insertByLastConnectedDesc, hlt]
        · intro x hx
          rcases List.mem_cons.mp hx with hx | hx
          · exact hx ▸ le_refl _
          · exact le_of_lt (lt_of_le_of_lt (hmax x hx) hlt)
      · refine ⟨m, ?_, List.mem_cons_of_mem c hm, ?_⟩
        · simp [insertByLastConnectedDesc, hlt]
        · intro x hx
          rcases List.mem_cons.mp hx with hx | hx
          · exact hx ▸ le_of_not_lt hlt
          · exact hmax x hx

/- ## eraseP lemma: unique ids are fully removed -/

theorem eraseP_id_not_mem (l : List PublicData) (cid : String)
    (hnd : (l.map PublicData.id).Nodup) :
    ∀ conn ∈ l.eraseP (fun x => x.id == cid), conn.id ≠ cid := by
  induction l with
  | nil => intro conn h; simp [List.eraseP] at h
  | cons a tl ih =>
    simp only [List.map_cons, List.nodup_cons] at hnd
    obtain ⟨hna, htl⟩ := hnd
    intro conn h
    by_cases hid : (a.id == cid) = true
    · simp only [List.eraseP_cons, hid, cond_true] at h
      intro hc
      have hmem : conn.id ∈ tl.map PublicData.id := List.mem_map.mpr ⟨conn, h, rfl⟩
      rw [hc, ← (by simpa using hid : a.id = cid)] at hmem
      exact hna hmem
    · rw [Bool.not_eq_true] at hid
      simp only [List.eraseP_cons, hid, cond_false] at h
      rcases List.mem_cons.mp h with h' | h'
      · rw [h']; simpa using hid
      · exact ih htl conn h'

/- ## requestNewToken structure lemmas -/

theorem requestNewToken_ok_tokens (o2 : OAuth2State) (id : String) (now : Int)
    (body : TokenResponse) (tok : String) (h : body.access_token = some tok) :
    (requestNewToken o2 id now (.ok body)).1.tokens
      = setAssoc o2.tokens id
          ⟨tok, now + (expiresInOrDefault body.expires_in - 300) * 1000,
            tokenTypeOrDefault body.token_type⟩ := by
  simp [requestNewToken, h, scheduleTokenRefresh]

theorem requestNewToken_ok_timers (o2 : OAuth2State) (id : String) (now : Int)
    (body : TokenResponse) (tok : String) (h : body.access_token = some tok) :
    (requestNewToken o2 id now (.ok body)).1.refreshTimers
      = setAssoc o2.refreshTimers id
          ⟨max ((expiresInOrDefault body.expires_in - 300) * 1000 - 5 * 60 * 1000) 60000⟩ := by
  simp [requestNewToken, h, scheduleTokenRefresh]

theorem requestNewToken_ok_result (o2 : OAuth2State) (id : String) (now : Int)
    (body : TokenResponse) (tok : String) (h : body.access_token = some tok) :
    (requestNewToken o2 id now (.ok body)).2 = (some tok, 1) := by
  simp [requestNewToken, h]

theorem getAccessToken_cached (o2 : OAuth2State) (id : String) (now : Int)
    (fo : HttpOutcome) (td : TokenData)
    (h : lookupAssoc o2.tokens id = some td) (hlt : now < td.expiresAt) :
    getAccessToken o2 id now false fo = (o2, some td.accessToken, 0) := by
  simp [getAccessToken, h, hlt]

/- ## Claim theorems -/

/-- C8: for every serialized Secret Bundle string s, decrypting the result
of encrypting s, both under the same stored encryption key, returns s. -/
theorem decryptData_encryptData_roundtrip (st : StoreState) (s : String) :
    decryptData st (encryptData st s) = s := by
  simp [decryptData, encryptData]

/-- C10: a successful (2xx) token response carrying an access_token but no
expires_in field is treated as a 3600-second lifetime, so the cached
entry's expiresAt equals now + 3300 seconds. -/
theorem requestNewToken_default_expiry (o2 : OAuth2State) (id : String) (now : Int)
    (body : TokenResponse) (tok : String)
    (ha : body.access_token = some tok) (he : body.expires_in = none) :
    lookupAssoc (requestNewToken o2 id now (.ok body)).1.tokens id
      = some ⟨tok, now + 3300 * 1000, tokenTypeOrDefault body.token_type⟩ := by
  rw [requestNewToken_ok_tokens o2 id now body tok ha, he, lookupAssoc_setAssoc]
  norm_num [expiresInOrDefault]

/-- C10 witness: with no expires_in in the response, the entry cached at
now = 1000 expires at 1000 + 3300000. -/
theorem requestNewToken_default_expiry_witness :
    lookupAssoc (requestNewToken emptyOAuth2 "c2" 1000 (.ok bodyNoExpiry)).1.tokens "c2"
      = some ⟨"T1", 1000 + 3300 * 1000, tokenTypeOrDefault bodyNoExpiry.token_type⟩ :=
  requestNewToken_default_expiry emptyOAuth2 "c2" 1000 bodyNoExpiry "T1" rfl rfl

/-- C3 counterexample: with a server-declared lifetime of 100 seconds the
stored expiresAt is 200 seconds in the past at the moment it is computed —
there is no floor keeping it out of the past. -/
theorem requestNewToken_expiresAt_in_past :
    lookupAssoc (requestNewToken emptyOAuth2 "c2" 1000000 (.ok body100)).1.tokens "c2"
      = some ⟨"T", 800000, "Bearer"⟩ ∧ (800000 : Int) < 1000000 := by
  refine ⟨?_, by norm_num⟩
  rw [requestNewToken_ok_tokens emptyOAuth2 "c2" 1000000 body100 "T" rfl, lookupAssoc_setAssoc]
  norm_num [expiresInOrDefault, tokenTypeOrDefault, body100]

/-- C3 amended: on a successful token request declaring a lifetime of E
seconds (E nonzero), the cached expiresAt equals now + (E - 300) seconds
with no floor applied, so for E < 300 the computed expiry is already in the
past. -/
theorem requestNewToken_expiresAt_formula (o2 : OAuth2State) (id : String) (now : Int)
    (body : TokenResponse) (tok : String) (E : Int)
    (ha : body.access_token = some tok) (he : body.expires_in = some E) (hE : E ≠ 0) :
    lookupAssoc (requestNewToken o2 id now (.ok body)).1.tokens id
      = some ⟨tok, now + (E - 300) * 1000, tokenTypeOrDefault body.token_type⟩ ∧
    (E < 300 → now + (E - 300) * 1000 < now) := by
  constructor
  · rw [requestNewToken_ok_tokens o2 id now body tok ha, he, lookupAssoc_setAssoc]
    simp [expiresInOrDefault, hE]
  · intro hlt
    have : (E - 300) * 1000 < 0 := by nlinarith
    linarith

/-- C3 amended witness: at now = 0 with expires_in = 3600 the cached
expiresAt is 3300000 ms; with expires_in = 100 it is negative (in the
past). -/
theorem requestNewToken_expiresAt_formula_witness :
    (lookupAssoc (requestNewToken emptyOAuth2 "c2" 0 (.ok body3600)).1.tokens "c2"
      = some ⟨"T1", 0 + (3600 - 300) * 1000, tokenTypeOrDefault body3600.token_type⟩) ∧
    (0 + ((100 : Int) - 300) * 1000 < 0) :=
  ⟨(requestNewToken_expiresAt_formula emptyOAuth2 "c2" 0 body3600 "T1" 3600 rfl rfl
      (by norm_num)).1,
   (requestNewToken_expiresAt_formula emptyOAuth2 "c2" 0 body100 "T" 100 rfl rfl
      (by norm_num)).2 (by norm_num)⟩

/-- C4 counterexample: after a successful acquisition with server lifetime
L = 3600000 ms, the scheduled refresh delay is 3000000 ms, not
max(L - 5min, 1min) = 3300000 ms. -/
theorem scheduleTokenRefresh_not_five_minutes :
    lookupAssoc (requestNewToken emptyOAuth2 "c2" 0 (.ok body3600)).1.refreshTimers "c2"
      = some ⟨3000000⟩ ∧ (3000000 : Int) ≠ max (3600000 - 5 * 60 * 1000) 60000 := by
  refine ⟨?_, by norm_num⟩
  rw [requestNewToken_ok_timers emptyOAuth2 "c2" 0 body3600 "T1" rfl, lookupAssoc_setAssoc]
  norm_num [expiresInOrDefault, body3600]

/-- C4 amended: after every successful acquisition with server-declared
lifetime L = E * 1000 ms (E nonzero), the background refresh is scheduled
max(L - 10min, 1min) in the future — the five-minute buffer is subtracted
once when computing the cached lifetime and again when scheduling — and
never sooner than one minute. -/
theorem scheduleTokenRefresh_delay_formula (o2 : OAuth2State) (id : String) (now : Int)
    (body : TokenResponse) (tok : String) (E : Int)
    (ha : body.access_token = some tok) (he : body.expires_in = some E) (hE : E ≠ 0) :
    lookupAssoc (requestNewToken o2 id now (.ok body)).1.refreshTimers id
      = some ⟨max (E * 1000 - 600000) 60000⟩ ∧
    (60000 : Int) ≤ max (E * 1000 - 600000) 60000 := by
  refine ⟨?_, le_max_right _ _⟩
  rw [requestNewToken_ok_timers o2 id now body tok ha, he, lookupAssoc_setAssoc]
  have harith : (E - 300) * 1000 - 300000 = E * 1000 - 600000 := by ring
  simp [expiresInOrDefault, hE, harith]

/-- C4 amended witness: for expires_in = 3600 the timer is armed at
max(3600000 - 600000, 60000) = 3000000 ms. -/
theorem scheduleTokenRefresh_delay_formula_witness :
    lookupAssoc (requestNewToken emptyOAuth2 "c2" 0 (.ok body3600)).1.refreshTimers "c2"
      = some ⟨max (3600 * 1000 - 600000) 60000⟩ ∧
    (60000 : Int) ≤ max (3600 * 1000 - 600000) 60000 :=
  scheduleTokenRefresh_delay_formula emptyOAuth2 "c2" 0 body3600 "T1" 3600 rfl rfl
    (by norm_num)

/-- C2: with a cached entry, forceRefresh = false and the current time
strictly before its expiresAt, getAccessToken returns the cached token with
zero network requests; consequently a cold call followed by a second call
made before the computed expiry issues exactly one network request in
total, the second returning the token cached by the first. -/
theorem getAccessToken_cache_hit (o2 : OAuth2State) (id : String) (t1 t2 : Int)
    (outcome2 : HttpOutcome) (body : TokenResponse) (tok : String) :
    (∀ td, lookupAssoc o2.tokens id = some td → t1 < td.expiresAt →
      ∀ fo, getAccessToken o2 id t1 false fo = (o2, some td.accessToken, 0)) ∧
    (lookupAssoc o2.tokens id = none → body.access_token = some tok →
      t2 < t1 + (expiresInOrDefault body.expires_in - 300) * 1000 →
      (getAccessToken o2 id t1 false (.ok body)).2.2
        + (getAccessToken (getAccessToken o2 id t1 false (.ok body)).1
            id t2 false outcome2).2.2 = 1 ∧
      (getAccessToken (getAccessToken o2 id t1 false (.ok body)).1
          id t2 false outcome2).2.1 = some tok) := by
  constructor
  · intro td hlook hlt fo
    exact getAccessToken_cached o2 id t1 fo td hlook hlt
  · intro h0 ha hlt
    have h1 : getAccessToken o2 id t1 false (.ok body)
        = requestNewToken o2 id t1 (.ok body) := by
      simp [getAccessToken, h0]
    have hlook2 : lookupAssoc (getAccessToken o2 id t1 false (.ok body)).1.tokens id
        = some ⟨tok, t1 + (expiresInOrDefault body.expires_in - 300) * 1000,
            tokenTypeOrDefault body.token_type⟩ := by
      rw [h1, requestNewToken_ok_tokens o2 id t1 body tok ha, lookupAssoc_setAssoc]
    have hcount1 : (getAccessToken o2 id t1 false (.ok body)).2.2 = 1 := by
      rw [h1, requestNewToken_ok_result o2 id t1 body tok ha]
    have h2 := getAccessToken_cached (getAccessToken o2 id t1 false (.ok body)).1
      id t2 outcome2 _ hlook2 hlt
    rw [hcount1, h2]
    exact ⟨rfl, rfl⟩

/-- C2 witness: a cache hit at a live entry is served with zero requests,
and a cold call at t = 0 followed by a call at t = 1000 (before the
3300-second expiry) issues exactly one request in total. -/
theorem getAccessToken_cache_hit_witness :
    (getAccessToken o2WithToken "c2" 100 false .fail
      = (o2WithToken, some "T0", 0)) ∧
    ((getAccessToken emptyOAuth2 "c2" 0 false (.ok body3600)).2.2
      + (getAccessToken (getAccessToken emptyOAuth2 "c2" 0 false (.ok body3600)).1
          "c2" 1000 false .fail).2.2 = 1 ∧
     (getAccessToken (getAccessToken emptyOAuth2 "c2" 0 false (.ok body3600)).1
        "c2" 1000 false .fail).2.1 = some "T1") :=
  ⟨(getAccessToken_cache_hit o2WithToken "c2" 100 0 .fail body3600 "T1").1
      ⟨"T0", 99999, "Bearer"⟩ rfl (by norm_num) .fail,
   (getAccessToken_cache_hit emptyOAuth2 "c2" 0 1000 .fail body3600 "T1").2
      rfl rfl (by norm_num [body3600, expiresInOrDefault])⟩

/-- C5 counterexample: an oauth2 connection whose initial round-trip fails
with HTTP status 500 gets no forced token refresh and no retry —
testConnection only retries on a 401 — contradicting the claim that every
initial failure of an oauth2 connection triggers exactly one forced
refresh and retry. -/
theorem testConnection_no_retry_on_500 :
    (testConnection "oauth2" ⟨some (some 500), true, true, true⟩).forcedRefreshes = 0 ∧
    (testConnection "oauth2" ⟨some (some 500), true, true, true⟩).result = false := by
  exact ⟨rfl, rfl⟩

/-- C5 amended: for oauth2 connections, a failure of the initial round-trip
carrying HTTP status 401 triggers exactly one forced refresh, at most one
re-initialization and at most one re-verification, succeeding only when
every retry step succeeds; any other failure — non-oauth2 connections,
errors without status 401, or a failing retry step — yields false with no
further attempts. -/
theorem testConnection_retry_spec (authType : String) (w : TestWorld) :
    (w.firstFailure = none → testConnection authType w = ⟨true, 0, 0, 1⟩) ∧
    (∀ status, w.firstFailure = some status →
      ((status == some 401 && authType == "oauth2") = true →
        (testConnection authType w).forcedRefreshes = 1 ∧
        (testConnection authType w).reinitializations ≤ 1 ∧
        (testConnection authType w).verifyAttempts ≤ 2 ∧
        ((testConnection authType w).result = true ↔
          w.refreshSucceeds = true ∧ w.reinitSucceeds = true ∧
            w.retryVerifySucceeds = true)) ∧
      ((status == some 401 && authType == "oauth2") = false →
        testConnection authType w = ⟨false, 0, 0, 1⟩)) := by
  obtain ⟨ff, rs, is, vs⟩ := w
  constructor
  · intro h
    subst h
    rfl
  · intro status hst
    subst hst
    constructor
    · intro hcond
      cases rs <;> cases is <;> cases vs <;> simp [testConnection, hcond]
    · intro hcond
      simp [testConnection, hcond]

/-- C5 amended witness: a 401 failure on an oauth2 connection with all
retry steps succeeding gives one forced refresh and a true result; the
same failure on a basic connection gives false with no retry. -/
theorem testConnection_retry_spec_witness :
    ((testConnection "oauth2" ⟨some (some 401), true, true, true⟩).forcedRefreshes = 1 ∧
     (testConnection "oauth2" ⟨some (some 401), true, true, true⟩).reinitializations ≤ 1 ∧
     (testConnection "oauth2" ⟨some (some 401), true, true, true⟩).verifyAttempts ≤ 2 ∧
     ((testConnection "oauth2" ⟨some (some 401), true, true, true⟩).result = true ↔
       true = true ∧ true = true ∧ true = true)) ∧
    testConnection "basic" ⟨some (some 401), true, true, true⟩ = ⟨false, 0, 0, 1⟩ :=
  ⟨((testConnection_retry_spec "oauth2" ⟨some (some 401), true, true, true⟩).2
      (some 401) rfl).1 rfl,
   ((testConnection_retry_spec "basic" ⟨some (some 401), true, true, true⟩).2
      (some 401) rfl).2 rfl⟩

/-- C6: deleteCredentials returns true exactly when a public record with
the id existed; when it did (with unique ids, as saveCredentials
maintains), afterwards the public record and the encrypted secret blob are
absent, and for an oauth2-type connection the cached token is evicted and
its pending refresh timer is cancelled so it can never fire. -/
theorem deleteCredentials_spec (st : StoreState) (o2 : OAuth2State) (cid : String) :
    ((deleteCredentials st o2 cid).2.2 = true ↔
      ∃ conn ∈ st.connections, conn.id = cid) ∧
    ((st.connections.map PublicData.id).Nodup →
      ∀ conn, st.connections.find? (fun x => x.id == cid) = some conn →
        (∀ conn' ∈ (deleteCredentials st o2 cid).1.connections, conn'.id ≠ cid) ∧
        lookupAssoc (deleteCredentials st o2 cid).1.sensitiveData cid = none ∧
        (conn.authType = "oauth2" →
          lookupAssoc (deleteCredentials st o2 cid).2.1.tokens cid = none ∧
          lookupAssoc (deleteCredentials st o2 cid).2.1.refreshTimers cid = none)) := by
  cases hfind : st.connections.find? (fun x => x.id == cid) with
  | none =>
    constructor
    · simp only [deleteCredentials, hfind]
      constructor
      · intro h
        exact absurd h (by simp)
      · rintro ⟨conn, hmem, hid⟩
        have hcontra := List.find?_eq_none.mp hfind conn hmem
        simp [hid] at hcontra
    · intro _ conn hc
      exact absurd hc (by simp)
  | some conn0 =>
    constructor
    · simp only [deleteCredentials, hfind]
      have hmem := List.mem_of_find?_eq_some hfind
      have hp := List.find?_some hfind
      exact ⟨fun _ => ⟨conn0, hmem, by simpa using hp⟩, fun _ => by trivial⟩
    · intro hnd conn hc
      injection hc with hc
      subst hc
      refine ⟨?_, ?_, ?_⟩
      · intro conn' h'
        have hconns : (deleteCredentials st o2 cid).1.connections
            = st.connections.eraseP (fun x => x.id == cid) := by
          simp [deleteCredentials, hfind]
        rw [hconns] at h'
        exact eraseP_id_not_mem st.connections cid hnd conn' h'
      · have hsens : (deleteCredentials st o2 cid).1.sensitiveData
            = removeAssoc st.sensitiveData cid := by
          simp [deleteCredentials, hfind]
        rw [hsens]
        exact lookupAssoc_removeAssoc _ _
      · intro hoauth
        have ho2 : (deleteCredentials st o2 cid).2.1 = clearConnection o2 cid := by
          simp [deleteCredentials, hfind, hoauth]
        rw [ho2]
        exact ⟨lookupAssoc_removeAssoc _ _, lookupAssoc_removeAssoc _ _⟩

/-- C6 witness: deleting the oauth2 connection c2 reports true and leaves
no public record, secret blob, cached token or refresh timer for c2. -/
theorem deleteCredentials_spec_witness :
    (deleteCredentials storeWithOauth o2WithToken "c2").2.2 = true ∧
    ((∀ conn' ∈ (deleteCredentials storeWithOauth o2WithToken "c2").1.connections,
        conn'.id ≠ "c2") ∧
     lookupAssoc (deleteCredentials storeWithOauth o2WithToken "c2").1.sensitiveData "c2"
        = none ∧
     (oauthConn.authType = "oauth2" →
       lookupAssoc (deleteCredentials storeWithOauth o2WithToken "c2").2.1.tokens "c2"
          = none ∧
       lookupAssoc
          (deleteCredentials storeWithOauth o2WithToken "c2").2.1.refreshTimers "c2"
          = none)) :=
  ⟨(deleteCredentials_spec storeWithOauth o2WithToken "c2").1.mpr
      ⟨oauthConn, by simp [storeWithOauth], rfl⟩,
   (deleteCredentials_spec storeWithOauth o2WithToken "c2").2
      (by simp [storeWithOauth]) oauthConn rfl⟩

/-- C7: loadCredentials fails with the not-found error when the id matches
no stored connection, fails with the distinct re-enter-credentials error
when the public record exists but no encrypted blob is stored, and on
success returns the merge of every public field with every decrypted
Secret Bundle field. -/
theorem loadCredentials_spec (st : StoreState) (cid : String) :
    ((∀ conn ∈ st.connections, conn.id ≠ cid) →
      loadCredentials st cid = .error .notFound) ∧
    (∀ conn, st.connections.find? (fun x => x.id == cid) = some conn →
      lookupAssoc st.sensitiveData cid = none →
      loadCredentials st cid = .error .secretMissing) ∧
    (LoadError.notFound ≠ LoadError.secretMissing) ∧
    (∀ conn s, st.connections.find? (fun x => x.id == cid) = some conn →
      lookupAssoc st.sensitiveData cid = some ⟨st.encryptionSalt, s⟩ →
      (∀ u p, s = .basic u p → conn.username = some u) →
      loadCredentials st cid = .ok (mergeCredentials conn s) ∧
      containsPublicFields (mergeCredentials conn s) conn ∧
      containsSecretFields (mergeCredentials conn s) s) := by
  refine ⟨?_, ?_, by simp, ?_⟩
  · intro hall
    have hfind : st.connections.find? (fun x => x.id == cid) = none :=
      List.find?_eq_none.mpr (fun x hx => by simpa using hall x hx)
    simp [loadCredentials, hfind]
  · intro conn hfind hnone
    simp [loadCredentials, hfind, hnone]
  · intro conn s hfind hsome hcons
    refine ⟨by simp [loadCredentials, hfind, hsome], ?_, ?_⟩
    · cases s with
      | basic u p =>
        have hu := hcons u p rfl
        simp [mergeCredentials, containsPublicFields, hu]
      | bearer t => simp [mergeCredentials, containsPublicFields]
      | oauth2 ci cs => simp [mergeCredentials, containsPublicFields]
      | empty => simp [mergeCredentials, containsPublicFields]
    · cases s <;> simp [mergeCredentials, containsSecretFields]

/-- C7 witness: an unknown id gives the not-found error; a record without
a blob gives the re-enter-credentials error; the oauth2 record c2 loads as
the merge of its public fields and its decrypted clientId/clientSecret. -/
theorem loadCredentials_spec_witness :
    loadCredentials storeWithOauth "nope" = .error .notFound ∧
    loadCredentials storeMissingSecret "c2" = .error .secretMissing ∧
    (loadCredentials storeWithOauth "c2"
        = .ok (mergeCredentials oauthConn (.oauth2 "cid" "csecret")) ∧
     containsPublicFields (mergeCredentials oauthConn (.oauth2 "cid" "csecret"))
        oauthConn ∧
     containsSecretFields (mergeCredentials oauthConn (.oauth2 "cid" "csecret"))
        (.oauth2 "cid" "csecret")) :=
  ⟨(loadCredentials_spec storeWithOauth "nope").1 (by decide),
   (loadCredentials_spec storeMissingSecret "c2").2.1 oauthConn rfl rfl,
   (loadCredentials_spec storeWithOauth "c2").2.2.2 oauthConn (.oauth2 "cid" "csecret")
      rfl rfl (fun u p h => nomatch h)⟩

/-- C9: every save overwrites the stored record's lastConnected with the
time of the save (also on an edit that never connected), and when that
time is strictly later than every previously stored lastConnected,
getLastConnection — which orders by lastConnected — returns the just-saved
record. -/
theorem saveCredentials_touches_lastConnected (st : StoreState) (c : Credentials)
    (now : Int) :
    (∀ conn ∈ (saveCredentials st c now).1.connections,
       conn.id = connectionIdOf c now → conn.lastConnected = now) ∧
    ((∀ conn ∈ st.connections, conn.lastConnected < now) →
      getLastConnection (saveCredentials st c now).1 = some (publicDataOf c now)) := by
  constructor
  · intro conn hmem hid
    rcases mem_saveCredentials_connections st c now conn hmem with ⟨_, hfalse⟩ | hnew
    · rw [hid] at hfalse
      simp at hfalse
    · rw [hnew]
      rfl
  · intro hall
    have hmemnew := publicDataOf_mem_saveCredentials st c now
    have hne : (saveCredentials st c now).1.connections ≠ [] := by
      intro h
      rw [h] at hmemnew
      exact absurd hmemnew (by simp)
    obtain ⟨m, hh, hm, hmax⟩ :=
      sortByLastConnectedDesc_head_max (saveCredentials st c now).1.connections hne
    have hmnew : m = publicDataOf c now := by
      rcases mem_saveCredentials_connections st c now m hm with ⟨hold, _⟩ | hnew
      · exfalso
        have h1 : m.lastConnected < now := hall m hold
        have h2 : now ≤ m.lastConnected := by
          simpa [publicDataOf] using hmax (publicDataOf c now) hmemnew
        linarith
      · exact hnew
    have hempty : (saveCredentials st c now).1.connections.isEmpty = false := by
      cases hconn : (saveCredentials st c now).1.connections with
      | nil => exact absurd hconn hne
      | cons a l => rfl
    rw [show getLastConnection (saveCredentials st c now).1
          = (sortByLastConnectedDesc (saveCredentials st c now).1.connections).head? by
        simp [getLastConnection, hempty]]
    rw [hh, hmnew]

/-- C9 witness: saving over a store whose only record was last connected at
500 stamps the saved record with 1000 and makes it the result of
getLastConnection. -/
theorem saveCredentials_touches_lastConnected_witness :
    (publicDataOf basicCreds 1000).lastConnected = 1000 ∧
    getLastConnection (saveCredentials storeWithOld basicCreds 1000).1
      = some (publicDataOf basicCreds 1000) :=
  ⟨(saveCredentials_touches_lastConnected storeWithOld basicCreds 1000).1
      (publicDataOf basicCreds 1000)
      (publicDataOf_mem_saveCredentials storeWithOld basicCreds 1000) rfl,
   (saveCredentials_touches_lastConnected storeWithOld basicCreds 1000).2
      (by decide)⟩

/-- C1 counterexample: saving a basic-auth connection copies the Secret
Bundle's username field into the cleartext public record, so a raw Secret
Bundle field value does appear in cleartext in the serialized store. -/
theorem saveCredentials_username_in_cleartext :
    buildSensitiveData basicCreds = SensitiveData.basic "alice-secret" "pw-secret" ∧
    "alice-secret" ∈ cleartextValues (saveCredentials emptyStore basicCreds 1000).1 := by
  refine ⟨rfl, ?_⟩
  rw [mem_cleartextValues]
  right
  exact ⟨publicDataOf basicCreds 1000,
    publicDataOf_mem_saveCredentials emptyStore basicCreds 1000,
    by simp [publicValues, publicDataOf, basicCreds]⟩

/-- C1 amended: saveCredentials writes the Secret Bundle only as
ciphertext under the process-wide key, and no Secret Bundle field value
other than the basic-auth username — which saveCredentials copies into the
cleartext public record — appears in cleartext, provided the value does
not coincide with one of the public inputs. -/
theorem saveCredentials_secrets_not_in_cleartext (st : StoreState) (c : Credentials)
    (now : Int) (v : String)
    (_hv : v ∈ nonUsernameSecretValues (buildSensitiveData c))
    (hst : v ∉ cleartextValues st)
    (hname : v ≠ c.name) (hurl : v ≠ c.url) (hauth : v ≠ c.authType)
    (huser : v ≠ c.username) (hid : v ≠ connectionIdOf c now)
    (hfolder : ∀ f, c.lastLocalFolder = some f → v ≠ f) :
    lookupAssoc (saveCredentials st c now).1.sensitiveData (connectionIdOf c now)
      = some ⟨st.encryptionSalt, buildSensitiveData c⟩ ∧
    v ∉ cleartextValues (saveCredentials st c now).1 := by
  constructor
  · rw [saveCredentials_sensitiveData]
    exact lookupAssoc_setAssoc _ _ _
  · intro hmem
    rw [mem_cleartextValues] at hmem
    rcases hmem with hsalt | ⟨conn, hconn, hval⟩
    · rw [saveCredentials_encryptionSalt] at hsalt
      exact hst ((mem_cleartextValues st v).mpr (Or.inl hsalt))
    · rcases mem_saveCredentials_connections st c now conn hconn with ⟨hold, _⟩ | hnew
      · exact hst ((mem_cleartextValues st v).mpr (Or.inr ⟨conn, hold, hval⟩))
      · subst hnew
        simp only [publicValues, publicDataOf, List.mem_append] at hval
        rcases hval with (hcore | hus) | hfold
        · simp only [List.mem_cons, List.not_mem_nil, or_false] at hcore
          rcases hcore with h | h | h | h
          · exact hname h
          · exact hurl h
          · exact hauth h
          · exact hid h
        · by_cases hb : (c.authType == "basic") = true
          · rw [if_pos hb] at hus
            simp only [Option.toList, List.mem_singleton] at hus
            exact huser hus
          · rw [Bool.not_eq_true] at hb
            rw [if_neg (by simp [hb])] at hus
            simp [Option.toList] at hus
        · cases hf : c.lastLocalFolder with
          | none =>
            rw [hf] at hfold
            simp [Option.toList] at hfold
          | some f =>
            rw [hf] at hfold
            simp only [Option.toList, List.mem_singleton] at hfold
            exact hfolder f hf hfold

/-- C1 amended witness: the bearer token tok-secret is stored only inside
the ciphertext under the store key and is absent from the cleartext store
values after the save. -/
theorem saveCredentials_secrets_not_in_cleartext_witness :
    lookupAssoc (saveCredentials emptyStore bearerCreds 5).1.sensitiveData
        (connectionIdOf bearerCreds 5)
      = some ⟨emptyStore.encryptionSalt, buildSensitiveData bearerCreds⟩ ∧
    "tok-secret" ∉ cleartextValues (saveCredentials emptyStore bearerCreds 5).1 :=
  saveCredentials_secrets_not_in_cleartext emptyStore bearerCreds 5 "tok-secret"
    (by decide) (by decide) (by decide) (by decide) (by decide) (by decide)
    (by decide) (fun f hf => nomatch hf)

end SfccWebdav
